import Mathlib

/-!
Shallow embedding of the StudyAI backend pieces under verification:
the AI-provider orchestration layer with structured fallback generation
(`Backend/src/services/aiService.js`), the study-group controller
(`controllers/studyGroupController.js`), the study-group model methods
(`models/StudyGroup.js`), the AI chat controller and the user schema.

External effects (the Groq SDK call, the Gemini HTTP call, MongoDB
operations, the clock) are modelled as explicit outcome parameters: each
embedded function takes the outcome its source would observe from the
outside world and computes the same result the JavaScript computes.
-/

namespace StudyAI

/-- JavaScript truthiness of a possibly-undefined string
(`undefined`, `null` and `''` are falsy). -/
def jsTruthy : Option String → Bool
  | none => false
  | some s => s ≠ ""

/-- Whether the first character list is an initial segment of the second. -/
def startsWithChars : List Char → List Char → Bool
  | [], _ => true
  | _ :: _, [] => false
  | p :: ps, t :: ts => p == t && startsWithChars ps ts

/-- Whether the first character list occurs contiguously in the second. -/
def hasSubChars (pat : List Char) : List Char → Bool
  | [] => startsWithChars pat []
  | t :: ts => startsWithChars pat (t :: ts) || hasSubChars pat ts

/-- JavaScript `String.prototype.includes`: `jsIncludes s sub` is
`s.includes(sub)`. -/
def jsIncludes (s sub : String) : Bool :=
  hasSubChars sub.toList s.toList

/-- Rendering of a possibly-undefined string inside a JS template literal:
`undefined` interpolates as the text "undefined". -/
def jsStr : Option String → String
  | none => "undefined"
  | some s => s

/-- One quiz question object produced by `generateFallbackQuiz`. -/
structure QuizQuestion where
  question : String
  options : List String
  correct : Nat
  explanation : String
deriving Repr, DecidableEq

/-- One resource object inside a fallback study-plan day. -/
structure Resource where
  type : String
  title : String
deriving Repr, DecidableEq

/-- One day object produced by `generateFallbackStudyPlan`. -/
structure PlanDay where
  day : Nat
  title : String
  objectives : List String
  overview : String
  keyPoints : List String
  examples : List String
  exercises : List String
  resources : List Resource
  totalTime : Nat
deriving Repr, DecidableEq

/-- The difficulty ladder of `generateFallbackStudyPlan`
(aiService.js lines 276-277): JS `day <= durationInDays / 3` and
`day <= (durationInDays * 2) / 3` use real division, modelled over `ℚ`. -/
def planDifficulty (day durationInDays : Nat) : String :=
  if (day : ℚ) ≤ (durationInDays : ℚ) / 3 then "Basic"
  else if (day : ℚ) ≤ (durationInDays : ℚ) * 2 / 3 then "Intermediate"
  else "Advanced"

/-- `AIService.generateFallbackStudyPlan(subject, level, durationInDays,
learningStyle)` (aiService.js lines 273-297).  `level`, `durationInDays` and
`learningStyle` are `Option`s because `generateStructuredFallback` calls this
with a single argument, leaving them `undefined`; the JS loop guard
`day <= undefined` is false, so a missing duration yields zero iterations. -/
def generateFallbackStudyPlan (subject : String) (level : Option String)
    (durationInDays : Option Nat) (learningStyle : Option String) : List PlanDay :=
  (List.range' 1 (durationInDays.getD 0)).map fun day =>
    let difficulty := planDifficulty day (durationInDays.getD 0)
    { day := day
      title := s!"Day {day}: {subject} - {difficulty} Concepts"
      objectives :=
        [ s!"Master fundamentals for Day {day}"
        , s!"Apply {difficulty} {subject} concepts"
        , "Do practical exercises"
        , "Prepare for next stage" ]
      overview := s!"Day {day} focuses on {difficulty} {subject} concepts at {jsStr level} level with {jsStr learningStyle} learning approach."
      keyPoints := [s!"Concept {day}-1", s!"Concept {day}-2"]
      examples := [s!"Example {day}-1", s!"Example {day}-2"]
      exercises := [s!"Exercise {day}-1", s!"Exercise {day}-2"]
      resources := [{ type := "article", title := s!"{subject} Guide Day {day}" }]
      totalTime := 120 }

/-- `AIService.generateFallbackQuiz(topic, difficulty, count)`
(aiService.js lines 299-315).  `difficulty` and `count` are `Option`s for the
one-argument call from `generateStructuredFallback` (the JS loop guard
`i <= undefined` is false, yielding an empty list). -/
def generateFallbackQuiz (topic : String) (difficulty : Option String)
    (count : Option Nat) : List QuizQuestion :=
  (List.range' 1 (count.getD 0)).map fun i =>
    { question := s!"What is a key {topic} concept at {jsStr difficulty} level?"
      options :=
        [ s!"Correct {topic} concept {i}"
        , "Wrong option A"
        , "Wrong option B"
        , "Wrong option C" ]
      correct := 0
      explanation := s!"This represents a fundamental {topic} {jsStr difficulty} concept." }

/-- `AIService.generateFallbackExplanation(concept, level)`
(aiService.js lines 317-346), a fixed template string. -/
def generateFallbackExplanation (concept : String) (level : Option String) : String :=
  s!"# Understanding {concept} ({jsStr level})\n\n## Overview\n{concept} is an important idea in its domain. At {jsStr level} level, you need both theory and applications.\n\n## Key Principles\n- Definition and meaning\n- Applications\n- Importance\n- Practical use\n\n## Real-World Examples\n- Simple applications\n- Advanced use\n- Industry cases\n- Problem solving\n\n## Misconceptions\n- It\x27s not only theory\n- Practical relevance matters\n- Builds on basics\n- Requires practice\n\n## Next Steps\n- Do exercises\n- Explore related ideas\n- Apply in projects\n- Review regularly"

/-- A JS value returned as generated `content`: providers return strings,
the fallback generators return either a string, a study-plan array or a
quiz array. -/
inductive Content where
  | str (s : String)
  | plan (p : List PlanDay)
  | quiz (q : List QuizQuestion)
deriving Repr, DecidableEq

/-- `AIService.generateStructuredFallback(prompt)` (aiService.js lines
158-169).  The routed calls pass only `prompt`, leaving the remaining JS
parameters `undefined`. -/
def generateStructuredFallback (prompt : String) : Content :=
  if jsIncludes prompt "study plan" then
    .plan (generateFallbackStudyPlan prompt none none none)
  else if jsIncludes prompt "quiz" then
    .quiz (generateFallbackQuiz prompt none none)
  else if jsIncludes prompt "explain" || jsIncludes prompt "concept" then
    .str (generateFallbackExplanation prompt none)
  else
    .str "Based on your request, here\x27s a structured fallback response:\n        \n- Focus on understanding fundamental concepts\n- Apply learning practically\n- Practice and review consistently\n- Break down complex topics into smaller parts"

/-- The result object the generation methods return: `success` always
present; `content` present on success; `fallback` present (and `true`) only
on the synthesized-template result, absent — hence falsy, modelled `false` —
otherwise; `error` present on provider failure. -/
structure GenResult where
  success : Bool
  content : Option Content
  fallback : Bool
  error : Option String
deriving Repr, DecidableEq

/-- One choice object of a Groq chat completion: `message.content` and
`text` may each be absent. -/
structure GroqChoice where
  messageContent : Option String
  text : Option String
deriving Repr, DecidableEq

/-- The raw Groq chat completion: a (possibly empty) list of choices. -/
structure GroqCompletion where
  choices : List GroqChoice
deriving Repr, DecidableEq

/-- Outcome of the external Groq call as observed by `generateWithGroq`:
the SDK was never initialized (missing/invalid key), the awaited call threw,
or it resolved to a completion object. -/
inductive GroqOutcome where
  | notInitialized
  | throwErr (msg : String)
  | completion (c : GroqCompletion)
deriving Repr, DecidableEq

/-- Outcome of the external Gemini HTTP call as observed by
`generateWithGemini`: invalid/missing API key, the request threw, or it
resolved with a list of candidate texts (`candidates[i].content.parts[0].text`). -/
inductive GeminiOutcome where
  | badKey
  | throwErr (msg : String)
  | response (candidates : List String)
deriving Repr, DecidableEq

/-- `AIService.generateWithGroq(prompt, options)` (aiService.js lines
47-73).  The prompt and options only shape the outgoing request, which the
`GroqOutcome` parameter abstracts; the returned content is JS
`choices?.[0]?.message?.content || choices?.[0]?.text || tail`. -/
def generateWithGroq (o : GroqOutcome) : GenResult :=
  match o with
  | .notInitialized =>
      { success := false, content := none, fallback := false
        error := some "Groq SDK not initialized" }
  | .throwErr msg =>
      { success := false, content := none, fallback := false, error := some msg }
  | .completion c =>
      let a := c.choices.head?.bind (·.messageContent)
      let b := c.choices.head?.bind (·.text)
      { success := true
        content := some (.str (if jsTruthy a then a.getD "" else if jsTruthy b then b.getD "" else ""))
        fallback := false
        error := none }

/-- `AIService.generateWithGemini(prompt, options)` (aiService.js lines
76-126).  A response with an empty `candidates` array throws inside the
`try`, so the `catch` turns it into a failure result. -/
def generateWithGemini (o : GeminiOutcome) : GenResult :=
  match o with
  | .badKey =>
      { success := false, content := none, fallback := false
        error := some "Gemini API key not configured or invalid" }
  | .throwErr msg =>
      { success := false, content := none, fallback := false, error := some msg }
  | .response cands =>
      match cands with
      | [] =>
          { success := false, content := none, fallback := false
            error := some "No candidates returned from Gemini API" }
      | c :: _ =>
          { success := true, content := some (.str c), fallback := false, error := none }

/-- `AIService.generate(prompt, provider, options)` (aiService.js lines
129-155): try Groq when `provider` is `'groq'` or `'auto'`, then Gemini when
`provider` is `'gemini'` or `'auto'`, and otherwise return the synthesized
structured fallback flagged `fallback: true`. -/
def generate (go : GroqOutcome) (ge : GeminiOutcome) (prompt provider : String) : GenResult :=
  let r1 := generateWithGroq go
  if (provider == "groq" || provider == "auto") && r1.success then r1
  else
    let r2 := generateWithGemini ge
    if (provider == "gemini" || provider == "auto") && r2.success then r2
    else
      { success := true, content := some (generateStructuredFallback prompt)
        fallback := true, error := none }

/-- The prompt string `AIService.generateQuizQuestions` builds
(aiService.js lines 204-213). -/
def quizPrompt (topic difficulty : String) (count : Nat) : String :=
  s!"Create {count} {difficulty} multiple choice quiz questions about {topic}.\nReturn ONLY a valid JSON array with this format:\n[\n  \x7b\n    \"question\": \"What is ...?\",\n    \"options\": [\"A\", \"B\", \"C\", \"D\"],\n    \"correct\": 0,\n    \"explanation\": \"Why correct\"\n  \x7d\n]"

/-- `AIService.generateQuizQuestions(topic, difficulty, count)`
(aiService.js lines 201-221): calls `generate` with provider `'gemini'`;
keeps the result unless it is the structured fallback, in which case it
builds `generateFallbackQuiz(topic, difficulty, count)` instead (that result
carries no `fallback` flag). -/
def generateQuizQuestions (go : GroqOutcome) (ge : GeminiOutcome)
    (topic difficulty : String) (count : Nat) : GenResult :=
  let result := generate go ge (quizPrompt topic difficulty count) "gemini"
  if result.success && !result.fallback then result
  else
    { success := true
      content := some (.quiz (generateFallbackQuiz topic (some difficulty) (some count)))
      fallback := false, error := none }

/-- Modelled from the spec: `aiService.continueConversation`, the method
`AIController.chat` awaits (controllers, `AIController.chat`), is not present
in the repository sources — only its call site is.  Per the spec, generation
"tries multiple LLM providers and synthesizes deterministic structured
content when all providers fail" and "AI-provider failures are treated as
soft failures absorbed by the fallback chain"; so the conversation is turned
into a prompt and run through the provider chain with both providers
enabled. -/
def continueConversation (go : GroqOutcome) (ge : GeminiOutcome)
    (messages : List String) : GenResult :=
  generate go ge (String.intercalate "\n" messages) "auto"

/-- Outcome of a MongoDB `save()` (or other awaited model operation):
either it resolves or it rejects with an error. -/
inductive DbOutcome where
  | ok
  | throwErr (msg : String)
deriving Repr, DecidableEq

/-- Outcome of `AIConversation.findOne` in `AIController.chat`: the query
threw, found no conversation, or found one holding a message list. -/
inductive ConvLookup where
  | throwErr (msg : String)
  | missing
  | found (messages : List String)
deriving Repr, DecidableEq

/-- The JSON response of the AI chat endpoint.  JS sends a single `message`
key that is a string on errors and the generated content on success; the two
are split into `errMessage` and `aiMessage` here. -/
structure ChatResponse where
  status : Nat
  success : Bool
  errMessage : Option String
  aiMessage : Option Content
deriving Repr, DecidableEq

/-- `AIController.chat(req, res)`: look up (or create) the conversation,
push the user message, call `aiService.continueConversation` on the
messages, answer 500 if it reports failure, save, and answer the AI content
with `success: true`; any throw is caught and answered as a generic 500. -/
def chat (message : String) (lookup : ConvLookup) (go : GroqOutcome)
    (ge : GeminiOutcome) (save : DbOutcome) : ChatResponse :=
  match lookup with
  | .throwErr _ =>
      { status := 500, success := false
        errMessage := some "Internal server error", aiMessage := none }
  | _ =>
      let msgs := (match lookup with | .found ms => ms | _ => []) ++ [message]
      let aiResponse := continueConversation go ge msgs
      if !aiResponse.success then
        { status := 500, success := false
          errMessage := some "Failed to get AI response", aiMessage := none }
      else
        match save with
        | .throwErr _ =>
            { status := 500, success := false
              errMessage := some "Internal server error", aiMessage := none }
        | .ok =>
            { status := 200, success := true
              errMessage := none, aiMessage := aiResponse.content }

/-- The JSON response of a study-group controller handler (status code,
`success` flag and `message` string when present). -/
structure Response where
  status : Nat
  success : Bool
  message : Option String
deriving Repr, DecidableEq

/-- `StudyGroupController.createStudyGroup`: reject a missing/empty `name`
or `subject` with 400, answer 201 on a successful save, and catch any throw
as a generic 500. -/
def createStudyGroup (name subject : Option String) (save : DbOutcome) : Response :=
  if !jsTruthy name || !jsTruthy subject then
    { status := 400, success := false, message := some "Name and subject are required" }
  else
    match save with
    | .throwErr _ =>
        { status := 500, success := false, message := some "Internal server error" }
    | .ok =>
        { status := 201, success := true, message := none }

/-- The fields of a study group that `joinStudyGroup` inspects: the member
user ids, `settings.maxMembers` and `settings.isPrivate`. -/
structure GroupState where
  members : List String
  maxMembers : Nat
  isPrivate : Bool
deriving Repr, DecidableEq

/-- Outcome of `StudyGroup.findById`: threw, found nothing, or found a
group document. -/
inductive FindOutcome where
  | throwErr (msg : String)
  | notFound
  | found (g : GroupState)
deriving Repr, DecidableEq

/-- `StudyGroupController.joinStudyGroup`: 404 when the group is missing,
400 when the caller is already a member or the group is full, 403 for a
private group, 200 after a successful save, and any throw — from the lookup
or the save — is caught as a generic 500. -/
def joinStudyGroup (userId : String) (find : FindOutcome) (save : DbOutcome) : Response :=
  match find with
  | .throwErr _ =>
      { status := 500, success := false, message := some "Internal server error" }
  | .notFound =>
      { status := 404, success := false, message := some "Study group not found" }
  | .found g =>
      if g.members.contains userId then
        { status := 400, success := false, message := some "Already a member of this group" }
      else if g.maxMembers ≤ g.members.length then
        { status := 400, success := false, message := some "Study group is full" }
      else if g.isPrivate then
        { status := 403, success := false
          message := some "This is a private group. You need an invitation to join." }
      else
        match save with
        | .throwErr _ =>
            { status := 500, success := false, message := some "Internal server error" }
        | .ok =>
            { status := 200, success := true, message := some "Successfully joined the study group" }

/-- The fields of a stored user document relevant to the uniqueness
constraints of `userSchema` (`unique: true` on `username` and `email`). -/
structure UserDoc where
  username : String
  email : String
deriving Repr, DecidableEq

/-- Modelled from the spec: the document store enforcing `userSchema`'s
`unique: true` indexes on `email` and `username` is not in the repository
(only the schema declaration is).  Per the spec, "Invariants are limited to
uniqueness (username/email) ... enforced by the document store's schema
validation": saving a user whose email (or username) collides with a stored
user is rejected, otherwise the user is appended. -/
def saveUser (store : List UserDoc) (u : UserDoc) : Except String (List UserDoc) :=
  if store.any (fun v => v.email == u.email) then
    .error "duplicate email"
  else if store.any (fun v => v.username == u.username) then
    .error "duplicate username"
  else
    .ok (store ++ [u])

/-- The user store after attempting a save: unchanged when the save is
rejected. -/
def storeAfterSave (store : List UserDoc) (u : UserDoc) : List UserDoc :=
  match saveUser store u with
  | .ok s => s
  | .error _ => store

/-- One chat message in `studyGroupSchema.chat.messages` (the fields
`addChatMessage` writes; timestamps are modelled as naturals). -/
structure ChatMessage where
  user : String
  content : String
  type : String
  createdAt : Nat
deriving Repr, DecidableEq

/-- `studyGroupSchema.methods.addChatMessage(userId, content, type)`
(StudyGroup.js lines 349-365): push the message, then
`if (messages.length > 1000) messages = messages.slice(-1000)`.
`now` is the value of `new Date()`. -/
def addChatMessage (msgs : List ChatMessage) (userId content : String)
    (type : String) (now : Nat) : List ChatMessage :=
  let message : ChatMessage := { user := userId, content := content, type := type, createdAt := now }
  let msgs' := msgs ++ [message]
  if 1000 < msgs'.length then msgs'.drop (msgs'.length - 1000) else msgs'

/-- One session attendee (the fields `joinSession` writes). -/
structure Attendee where
  user : String
  joinedAt : Nat
  leftAt : Option Nat
deriving Repr, DecidableEq

/-- One session subdocument of a study group (the fields `joinSession`
reads and writes; `id` stands for the Mongo subdocument `_id`). -/
structure Session where
  id : String
  scheduledAt : Nat
  status : String
  liveStartedAt : Option Nat
  attendees : List Attendee
deriving Repr, DecidableEq

/-- The sessions array of a study group document. -/
structure Group where
  sessions : List Session
deriving Repr, DecidableEq

/-- The first mutation of `joinSession` (StudyGroup.js lines 374-383):
push an attendee entry unless one with this user already exists. -/
def addAttendee (s : Session) (userId : String) (now : Nat) : Session :=
  if s.attendees.any (fun a => a.user == userId) then s
  else { s with attendees := s.attendees ++ [{ user := userId, joinedAt := now, leftAt := none }] }

/-- The second mutation of `joinSession` (StudyGroup.js lines 386-390):
flip a due `scheduled` session to `live`; JS `liveStartedAt || now` keeps an
existing start time. -/
def setLiveIfDue (s : Session) (now : Nat) : Session :=
  if s.scheduledAt ≤ now && s.status == "scheduled" then
    { s with status := "live", liveStartedAt := some (s.liveStartedAt.getD now) }
  else s

/-- The whole mutation `joinSession` performs on the found session. -/
def joinSessionUpdate (s : Session) (userId : String) (now : Nat) : Session :=
  setLiveIfDue (addAttendee s userId now) now

/-- Apply `f` to the first element satisfying `p` (Mongoose `.id()` finds
the first subdocument with the given id and `joinSession` mutates it in
place). -/
def updateFirst (p : α → Bool) (f : α → α) : List α → List α
  | [] => []
  | x :: xs => if p x then f x :: xs else x :: updateFirst p f xs

/-- `studyGroupSchema.methods.joinSession(sessionId, userId)`
(StudyGroup.js lines 368-393): throw when `sessions.id(sessionId)` finds
nothing, otherwise mutate that session and save. -/
def joinSession (g : Group) (sessionId userId : String) (now : Nat) :
    Except String Group :=
  if g.sessions.any (fun s => s.id == sessionId) then
    .ok { sessions := updateFirst (fun s => s.id == sessionId)
            (fun s => joinSessionUpdate s userId now) g.sessions }
  else
    .error "Session not found"

/-- The session `sessions.id(sessionId)` finds: the first one with this id. -/
def findSession (g : Group) (sessionId : String) : Option Session :=
  g.sessions.find? (fun s => s.id == sessionId)

/-- The number of attendee entries a session holds for a given user. -/
def attendCount (s : Session) (userId : String) : Nat :=
  (s.attendees.filter (fun a => a.user == userId)).length

/-! ## Helper lemmas -/

theorem generateWithGroq_fallback_false (go : GroqOutcome) :
    (generateWithGroq go).fallback = false := by
  cases go <;> rfl

theorem generateWithGemini_fallback_false (ge : GeminiOutcome) :
    (generateWithGemini ge).fallback = false := by
  cases ge with
  | response cands => cases cands <;> rfl
  | _ => rfl

/-- The record `generate` returns when all selected providers failed. -/
theorem generate_fallback_spec (go : GroqOutcome) (ge : GeminiOutcome)
    (prompt provider : String)
    (h : (generate go ge prompt provider).fallback = true) :
    generate go ge prompt provider =
      { success := true, content := some (generateStructuredFallback prompt)
        fallback := true, error := none } := by
  dsimp only [generate] at h ⊢
  split at h
  · rw [generateWithGroq_fallback_false] at h; exact absurd h (by simp)
  · split at h
    · rw [generateWithGemini_fallback_false] at h; exact absurd h (by simp)
    · rename_i h1 h2
      rw [if_neg h1, if_neg h2]

/-- The nat form of the rational difficulty thresholds of
`generateFallbackStudyPlan`: `day ≤ n / 3` over `ℚ` is `3 * day ≤ n`. -/
theorem planDifficulty_eq (day n : Nat) :
    planDifficulty day n =
      if 3 * day ≤ n then "Basic"
      else if 3 * day ≤ 2 * n then "Intermediate"
      else "Advanced" := by
  unfold planDifficulty
  have h1 : ((day : ℚ) ≤ (n : ℚ) / 3) ↔ 3 * day ≤ n := by
    rw [le_div_iff₀ (by norm_num : (0 : ℚ) < 3)]
    rw [show ((day : ℚ) * 3 = ((3 * day : ℕ) : ℚ)) from by push_cast; ring]
    exact_mod_cast Iff.rfl
  have h2 : ((day : ℚ) ≤ (n : ℚ) * 2 / 3) ↔ 3 * day ≤ 2 * n := by
    rw [le_div_iff₀ (by norm_num : (0 : ℚ) < 3)]
    rw [show ((day : ℚ) * 3 = ((3 * day : ℕ) : ℚ)) from by push_cast; ring]
    rw [show ((n : ℚ) * 2 = ((2 * n : ℕ) : ℚ)) from by push_cast; ring]
    exact_mod_cast Iff.rfl
  simp only [h1, h2]

/-- Every path of `generate` ends in a result whose `success` is `true`:
a provider result is returned only when it succeeded, and the fallback
record is literally built with `success: true`. -/
theorem generate_success_eq_true (go : GroqOutcome) (ge : GeminiOutcome)
    (prompt provider : String) :
    (generate go ge prompt provider).success = true := by
  dsimp only [generate]
  split
  · rename_i h; exact (Bool.and_eq_true _ _ |>.mp h).2
  · split
    · rename_i h; exact (Bool.and_eq_true _ _ |>.mp h).2
    · rfl

/-- The modelled `continueConversation` inherits `success = true` from the
provider chain. -/
theorem continueConversation_success (go : GroqOutcome) (ge : GeminiOutcome)
    (messages : List String) :
    (continueConversation go ge messages).success = true :=
  generate_success_eq_true go ge (String.intercalate "\n" messages) "auto"

/-! ## Claims -/

/-- C1: for every prompt, provider argument and provider outcomes —
including both providers failing — `AIService.generate` returns a result
with `success = true`; when both providers fail it returns the synthesized
structured fallback flagged `fallback = true`, so it never returns an error
result. -/
theorem generate_always_success (go : GroqOutcome) (ge : GeminiOutcome)
    (prompt provider : String) :
    (generate go ge prompt provider).success = true ∧
    ((generateWithGroq go).success = false → (generateWithGemini ge).success = false →
      generate go ge prompt provider =
        { success := true, content := some (generateStructuredFallback prompt)
          fallback := true, error := none }) := by
  refine ⟨generate_success_eq_true go ge prompt provider, ?_⟩
  intro h1 h2
  dsimp only [generate]
  rw [if_neg (by simp [h1]), if_neg (by simp [h2])]

/-- C1 witness: with Groq throwing and the Gemini key invalid, `generate`
still answers `success = true`, with the fallback content and flag. -/
theorem generate_always_success_witness :
    (generate (.throwErr "boom") .badKey "p" "groq").success = true ∧
    generate (.throwErr "boom") .badKey "p" "groq" =
      { success := true, content := some (generateStructuredFallback "p")
        fallback := true, error := none } :=
  ⟨(generate_always_success (.throwErr "boom") .badKey "p" "groq").1,
   (generate_always_success (.throwErr "boom") .badKey "p" "groq").2 rfl rfl⟩

/-- C2 counterexample: with the default provider argument `'groq'`, Groq
failing and a Gemini environment that would succeed, `generate` returns the
synthesized template without the second provider ever being attempted — the
result is the fallback even though `generateWithGemini` would have
succeeded, and it is identical whether Gemini would succeed or fail. -/
theorem generate_template_before_gemini_cex :
    (generateWithGemini (.response ["good answer"])).success = true ∧
    generate (.throwErr "boom") (.response ["good answer"]) "p" "groq" =
      { success := true, content := some (generateStructuredFallback "p")
        fallback := true, error := none } ∧
    generate (.throwErr "boom") (.response ["good answer"]) "p" "groq" =
      generate (.throwErr "boom") (.throwErr "gemini also down") "p" "groq" :=
  ⟨rfl, rfl, rfl⟩

/-- C2 (amended): the order Groq, then Gemini, then template holds only for
provider `'auto'`.  For provider `'groq'` (the default) Gemini is never
attempted and the template is returned as soon as Groq fails; for provider
`'gemini'` — which `generateQuizQuestions` passes — Groq is never attempted
and the template is returned as soon as Gemini fails. -/
theorem generate_provider_order (go go' : GroqOutcome) (ge ge' : GeminiOutcome)
    (p topic difficulty : String) (count : Nat) :
    ((generateWithGroq go).success = true →
      generate go ge p "auto" = generateWithGroq go) ∧
    ((generateWithGroq go).success = false → (generateWithGemini ge).success = true →
      generate go ge p "auto" = generateWithGemini ge) ∧
    ((generateWithGroq go).success = false → (generateWithGemini ge).success = false →
      generate go ge p "auto" =
        { success := true, content := some (generateStructuredFallback p)
          fallback := true, error := none }) ∧
    (generate go ge p "groq" = generate go ge' p "groq") ∧
    ((generateWithGroq go).success = false →
      generate go ge p "groq" =
        { success := true, content := some (generateStructuredFallback p)
          fallback := true, error := none }) ∧
    (generate go ge p "gemini" = generate go' ge p "gemini") ∧
    ((generateWithGemini ge).success = false →
      generate go ge p "gemini" =
        { success := true, content := some (generateStructuredFallback p)
          fallback := true, error := none }) ∧
    (generateQuizQuestions go ge topic difficulty count =
      generateQuizQuestions go' ge topic difficulty count) := by
  refine ⟨?_, ?_, ?_, ?_, ?_, ?_, ?_, ?_⟩
  · intro h; dsimp only [generate]; rw [if_pos (by simp [h])]
  · intro h1 h2; dsimp only [generate]
    rw [if_neg (by simp [h1]), if_pos (by simp [h2])]
  · intro h1 h2; dsimp only [generate]
    rw [if_neg (by simp [h1]), if_neg (by simp [h2])]
  · dsimp only [generate]; rfl
  · intro h1; dsimp only [generate]
    rw [if_neg (by simp [h1]), if_neg (by simp)]
  · dsimp only [generate]; rfl
  · intro h2; dsimp only [generate]
    rw [if_neg (by simp), if_neg (by simp [h2])]
  · dsimp only [generateQuizQuestions, generate]; rfl

/-- C2 witness: concrete runs of the amended behavior — with provider
`'auto'` and both providers down the template is returned, and with provider
`'groq'` the result does not depend on the Gemini environment. -/
theorem generate_provider_order_witness :
    generate (.throwErr "a") .badKey "p" "auto" =
      { success := true, content := some (generateStructuredFallback "p")
        fallback := true, error := none } ∧
    generate (.throwErr "a") .badKey "p" "groq" =
      generate (.throwErr "a") (.response ["up"]) "p" "groq" :=
  ⟨(generate_provider_order (.throwErr "a") .notInitialized .badKey (.response ["up"])
      "p" "t" "d" 1).2.2.1 rfl rfl,
   ((generate_provider_order (.throwErr "a") .notInitialized (.response ["up"]) .badKey
      "p" "t" "d" 1).2.2.2.1).symm⟩

/-- C4 counterexample: a Groq completion with no choices (invalid shape) is
not treated as a failure — `generateWithGroq` reports `success = true` with
empty content, and `generate` with provider `'auto'` returns that empty
result without calling Gemini, even though `generateWithGemini` would have
succeeded. -/
theorem groq_invalid_shape_cex :
    (generateWithGroq (.completion ⟨[]⟩)).success = true ∧
    (generateWithGemini (.response ["good"])).success = true ∧
    generate (.completion ⟨[]⟩) (.response ["good"]) "p" "auto" =
      { success := true, content := some (.str ""), fallback := false, error := none } :=
  ⟨rfl, rfl, rfl⟩

/-- C4 (amended): any resolved Groq completion — whatever its shape — is
treated as success, with content `choices?.[0]?.message?.content ||
choices?.[0]?.text || tail`; `generate` then returns it unchanged, never
reaching Gemini (the result is independent of the Gemini environment).
Only a thrown call or an uninitialized SDK is a Groq failure, while a
Gemini response with no candidates is treated as a failure. -/
theorem groq_completion_always_success (c : GroqCompletion)
    (ge ge' : GeminiOutcome) (p : String) :
    (generateWithGroq (.completion c)).success = true ∧
    generate (.completion c) ge p "auto" = generateWithGroq (.completion c) ∧
    generate (.completion c) ge p "auto" = generate (.completion c) ge' p "auto" ∧
    (generateWithGemini (.response [])).success = false := by
  refine ⟨rfl, ?_, ?_, rfl⟩
  · dsimp only [generate]; rw [if_pos (by simp [generateWithGroq])]
  · dsimp only [generate]
    rw [if_pos (by simp [generateWithGroq]), if_pos (by simp [generateWithGroq])]

/-- C5: the synthesized fallback content is deterministic — any two
`generate` calls with the same prompt and provider argument that both end in
the structured fallback return identical content, whatever the (failing)
provider outcomes were, and that content is `generateStructuredFallback`
of the prompt. -/
theorem fallback_content_deterministic (p prov : String)
    (go₁ go₂ : GroqOutcome) (ge₁ ge₂ : GeminiOutcome)
    (h₁ : (generate go₁ ge₁ p prov).fallback = true)
    (h₂ : (generate go₂ ge₂ p prov).fallback = true) :
    (generate go₁ ge₁ p prov).content = (generate go₂ ge₂ p prov).content ∧
    (generate go₁ ge₁ p prov).content = some (generateStructuredFallback p) := by
  rw [generate_fallback_spec go₁ ge₁ p prov h₁, generate_fallback_spec go₂ ge₂ p prov h₂]
  exact ⟨rfl, rfl⟩

/-- C5 witness: two calls that fail in different ways (Groq throwing vs.
SDK uninitialized, Gemini key invalid vs. HTTP error) produce identical
fallback content. -/
theorem fallback_content_deterministic_witness :
    (generate (.throwErr "a") .badKey "p" "auto").content =
      (generate .notInitialized (.throwErr "z") "p" "auto").content ∧
    (generate (.throwErr "a") .badKey "p" "auto").content =
      some (generateStructuredFallback "p") :=
  fallback_content_deterministic "p" "auto" (.throwErr "a") .notInitialized
    .badKey (.throwErr "z") rfl rfl

/-- C3: for every chat request, an AI-provider failure is absorbed by the
fallback chain — whenever the database operations themselves do not throw,
the chat handler answers 200 with `success = true`, for every combination of
provider outcomes (including both providers failing); a provider failure
never produces an error response. -/
theorem chat_absorbs_provider_failures (message : String) (lookup : ConvLookup)
    (go : GroqOutcome) (ge : GeminiOutcome)
    (hl : ∀ m, lookup ≠ ConvLookup.throwErr m) :
    (chat message lookup go ge .ok).status = 200 ∧
    (chat message lookup go ge .ok).success = true := by
  cases lookup with
  | throwErr m => exact absurd rfl (hl m)
  | missing => constructor <;> simp [chat, continueConversation_success]
  | found ms => constructor <;> simp [chat, continueConversation_success]

/-- C3 witness: a fresh conversation with the Groq SDK uninitialized and an
invalid Gemini key still gets a 200 success answer. -/
theorem chat_absorbs_provider_failures_witness :
    (chat "hello" .missing .notInitialized .badKey .ok).status = 200 ∧
    (chat "hello" .missing .notInitialized .badKey .ok).success = true :=
  chat_absorbs_provider_failures "hello" .missing .notInitialized .badKey
    (fun _ h => ConvLookup.noConfusion h)

/-- C6: for every subject, level, learning style and duration `n ≥ 1`, the
fallback study plan has exactly `n` entries whose `day` fields are
`1, …, n` in increasing order, each interpolating the subject into the fixed
title template with difficulty `Basic` for `day ≤ n/3`, `Intermediate` for
`day ≤ 2n/3` and `Advanced` otherwise (real division, i.e. `3·day ≤ n`
resp. `3·day ≤ 2n`). -/
theorem generateFallbackStudyPlan_structure (subject level ls : String)
    (n : Nat) (hn : 1 ≤ n) :
    (generateFallbackStudyPlan subject (some level) (some n) (some ls)).length = n ∧
    generateFallbackStudyPlan subject (some level) (some n) (some ls) ≠ [] ∧
    (generateFallbackStudyPlan subject (some level) (some n) (some ls)).map PlanDay.day
      = List.range' 1 n ∧
    (∀ i (h : i < (generateFallbackStudyPlan subject (some level) (some n) (some ls)).length),
      ((generateFallbackStudyPlan subject (some level) (some n) (some ls)).get ⟨i, h⟩).day
        = i + 1 ∧
      ((generateFallbackStudyPlan subject (some level) (some n) (some ls)).get ⟨i, h⟩).title
        = s!"Day {i + 1}: {subject} - {planDifficulty (i + 1) n} Concepts") ∧
    (∀ day, planDifficulty day n =
      if 3 * day ≤ n then "Basic"
      else if 3 * day ≤ 2 * n then "Intermediate"
      else "Advanced") := by
  have hlen : (generateFallbackStudyPlan subject (some level) (some n) (some ls)).length = n := by
    simp [generateFallbackStudyPlan]
  refine ⟨hlen, ?_, ?_, ?_, fun day => planDifficulty_eq day n⟩
  · intro hnil
    rw [hnil] at hlen
    simp at hlen
    omega
  · rw [generateFallbackStudyPlan, List.map_map]
    have : ∀ f : Nat → PlanDay, (∀ x, PlanDay.day (f x) = x) →
        List.map (PlanDay.day ∘ f) (List.range' 1 n) = List.range' 1 n := by
      intro f hf
      have : PlanDay.day ∘ f = id := funext fun x => hf x
      rw [this, List.map_id]
    exact this _ fun x => rfl
  · intro i h
    rw [hlen] at h
    constructor <;>
      simp [generateFallbackStudyPlan, List.get_eq_getElem, List.getElem_map,
        List.getElem_range', Nat.add_comm 1 i]

/-- C6 witness: a four-day plan for a concrete subject has four entries
with days 1..4. -/
theorem generateFallbackStudyPlan_structure_witness :
    (generateFallbackStudyPlan "Math" (some "beginner") (some 4) (some "visual")).length = 4 ∧
    (generateFallbackStudyPlan "Math" (some "beginner") (some 4) (some "visual")).map PlanDay.day
      = List.range' 1 4 :=
  ⟨(generateFallbackStudyPlan_structure "Math" "beginner" "visual" 4 (by norm_num)).1,
   (generateFallbackStudyPlan_structure "Math" "beginner" "visual" 4 (by norm_num)).2.2.1⟩

/-- C7: in the study-group controller, a thrown model operation is answered
with status 500, `success = false` and the generic message; the validation
failures (missing name/subject, group not found, already a member, group
full) are answered 400 or 404 with a message string; and every outcome maps
to one of the handler responses, so no thrown error escapes. -/
theorem studyGroup_controller_error_handling
    (name subject : Option String) (find : FindOutcome) (save : DbOutcome)
    (userId m : String) (g : GroupState) :
    (jsTruthy name = true → jsTruthy subject = true →
      createStudyGroup name subject (.throwErr m) =
        { status := 500, success := false, message := some "Internal server error" }) ∧
    ((jsTruthy name = false ∨ jsTruthy subject = false) →
      createStudyGroup name subject save =
        { status := 400, success := false, message := some "Name and subject are required" }) ∧
    (joinStudyGroup userId (.throwErr m) save =
      { status := 500, success := false, message := some "Internal server error" }) ∧
    (joinStudyGroup userId .notFound save =
      { status := 404, success := false, message := some "Study group not found" }) ∧
    (userId ∈ g.members →
      joinStudyGroup userId (.found g) save =
        { status := 400, success := false, message := some "Already a member of this group" }) ∧
    (userId ∉ g.members → g.maxMembers ≤ g.members.length →
      joinStudyGroup userId (.found g) save =
        { status := 400, success := false, message := some "Study group is full" }) ∧
    (userId ∉ g.members → g.members.length < g.maxMembers →
      g.isPrivate = false →
      joinStudyGroup userId (.found g) (.throwErr m) =
        { status := 500, success := false, message := some "Internal server error" }) ∧
    ((createStudyGroup name subject save).status = 201 ∨
      (createStudyGroup name subject save).status = 400 ∨
      (createStudyGroup name subject save).status = 500) ∧
    ((createStudyGroup name subject save).status = 500 →
      (createStudyGroup name subject save).success = false ∧
      (createStudyGroup name subject save).message = some "Internal server error") ∧
    ((joinStudyGroup userId find save).status = 200 ∨
      (joinStudyGroup userId find save).status = 400 ∨
      (joinStudyGroup userId find save).status = 403 ∨
      (joinStudyGroup userId find save).status = 404 ∨
      (joinStudyGroup userId find save).status = 500) ∧
    ((joinStudyGroup userId find save).status = 500 →
      (joinStudyGroup userId find save).success = false ∧
      (joinStudyGroup userId find save).message = some "Internal server error") := by
  refine ⟨?_, ?_, rfl, rfl, ?_, ?_, ?_, ?_, ?_, ?_, ?_⟩
  · intro h1 h2; simp [createStudyGroup, h1, h2]
  · intro h; rcases h with h | h <;> simp [createStudyGroup, h]
  · intro h; simp [joinStudyGroup, h]
  · intro h1 h2; simp [joinStudyGroup, h1, h2]
  · intro h1 h2 h3; simp [joinStudyGroup, h1, h3, Nat.not_le.mpr h2]
  · rcases hn : jsTruthy name with _ | _ <;> rcases hs : jsTruthy subject with _ | _ <;>
      cases save <;> simp [createStudyGroup, hn, hs]
  · intro h
    rcases hn : jsTruthy name with _ | _ <;> rcases hs : jsTruthy subject with _ | _ <;>
      cases save <;> simp_all [createStudyGroup]
  · cases find with
    | throwErr msg => simp [joinStudyGroup]
    | notFound => simp [joinStudyGroup]
    | found g' =>
        by_cases h1 : userId ∈ g'.members <;>
          by_cases h2 : g'.maxMembers ≤ g'.members.length <;>
          by_cases h3 : g'.isPrivate <;> cases save <;>
          simp [joinStudyGroup, h1, h2, h3]
  · intro h
    cases find with
    | throwErr msg => simp [joinStudyGroup]
    | notFound => simp_all [joinStudyGroup]
    | found g' =>
        dsimp only [joinStudyGroup] at h ⊢
        split_ifs at h ⊢ <;> cases save <;> simp_all

/-- C7 witness: a save that throws yields the generic 500; a join on a full
group yields the 400 message. -/
theorem studyGroup_controller_error_handling_witness :
    createStudyGroup (some "Algebra club") (some "Algebra") (.throwErr "db down") =
      { status := 500, success := false, message := some "Internal server error" } ∧
    joinStudyGroup "u2" (.found { members := ["u1"], maxMembers := 1, isPrivate := false }) .ok =
      { status := 400, success := false, message := some "Study group is full" } :=
  ⟨(studyGroup_controller_error_handling (some "Algebra club") (some "Algebra")
      .notFound .ok "u2" "db down"
      { members := ["u1"], maxMembers := 1, isPrivate := false }).1 rfl rfl,
   ((studyGroup_controller_error_handling (some "Algebra club") (some "Algebra")
      .notFound .ok "u2" "db down"
      { members := ["u1"], maxMembers := 1, isPrivate := false }).2.2.2.2.2.1)
      (by simp) (by norm_num)⟩

/-- C8: saving a new user whose email equals a stored user's email is
rejected by the uniqueness constraint and the stored users are unchanged. -/
theorem duplicate_email_rejected (store : List UserDoc) (u v : UserDoc)
    (hv : v ∈ store) (he : v.email = u.email) :
    saveUser store u = .error "duplicate email" ∧
    storeAfterSave store u = store := by
  have h : store.any (fun w => w.email == u.email) = true :=
    List.any_eq_true.mpr ⟨v, hv, by simp [he]⟩
  constructor
  · simp [saveUser, h]
  · simp [storeAfterSave, saveUser, h]

/-- C8 witness: re-registering a stored email is rejected and the store is
unchanged. -/
theorem duplicate_email_rejected_witness :
    saveUser [{ username := "alice", email := "a@x.com" }]
        { username := "bob", email := "a@x.com" } = .error "duplicate email" ∧
    storeAfterSave [{ username := "alice", email := "a@x.com" }]
        { username := "bob", email := "a@x.com" } =
      [{ username := "alice", email := "a@x.com" }] :=
  duplicate_email_rejected [{ username := "alice", email := "a@x.com" }]
    { username := "bob", email := "a@x.com" }
    { username := "alice", email := "a@x.com" } (by simp) rfl

/-- C9: after every `addChatMessage` call the chat holds at most 1000
messages, and the result is exactly the 1000 newest messages of the history
extended with the new one, in order — when the bound is exceeded the oldest
are dropped. -/
theorem addChatMessage_bounded (msgs : List ChatMessage)
    (userId content ty : String) (now : Nat) :
    (addChatMessage msgs userId content ty now).length ≤ 1000 ∧
    addChatMessage msgs userId content ty now =
      (msgs ++ [({ user := userId, content := content, type := ty, createdAt := now } : ChatMessage)]).drop
        ((msgs.length + 1) - 1000) := by
  unfold addChatMessage
  dsimp only
  constructor
  · split
    · rename_i h
      rw [List.length_drop]
      omega
    · rename_i h
      rw [List.length_append] at h ⊢
      simp at h ⊢
      omega
  · split
    · rename_i h
      rw [List.length_append] at h ⊢
      simp at h ⊢
    · rename_i h
      rw [List.length_append] at h
      simp at h
      rw [show msgs.length + 1 - 1000 = 0 from by omega, List.drop_zero]

theorem setLiveIfDue_attendees (s : Session) (now : Nat) :
    (setLiveIfDue s now).attendees = s.attendees := by
  unfold setLiveIfDue; split <;> rfl

theorem setLiveIfDue_id (s : Session) (now : Nat) :
    (setLiveIfDue s now).id = s.id := by
  unfold setLiveIfDue; split <;> rfl

theorem addAttendee_id (s : Session) (uid : String) (now : Nat) :
    (addAttendee s uid now).id = s.id := by
  unfold addAttendee; split <;> rfl

theorem addAttendee_attendees (s : Session) (uid : String) (now : Nat) :
    (addAttendee s uid now).attendees =
      if s.attendees.any (fun a => a.user == uid) then s.attendees
      else s.attendees ++ [({ user := uid, joinedAt := now, leftAt := none } : Attendee)] := by
  unfold addAttendee; split <;> simp_all

theorem joinSessionUpdate_id (s : Session) (uid : String) (now : Nat) :
    (joinSessionUpdate s uid now).id = s.id := by
  unfold joinSessionUpdate; rw [setLiveIfDue_id, addAttendee_id]

theorem any_addAttendee (s : Session) (uid : String) (now : Nat) :
    (addAttendee s uid now).attendees.any (fun a => a.user == uid) = true := by
  rw [addAttendee_attendees]
  split_ifs with h
  · exact h
  · simp [List.any_append]

theorem any_joinSessionUpdate (s : Session) (uid : String) (now : Nat) :
    (joinSessionUpdate s uid now).attendees.any (fun a => a.user == uid) = true := by
  unfold joinSessionUpdate
  rw [setLiveIfDue_attendees]
  exact any_addAttendee s uid now

/-- A second `joinSessionUpdate` with the same user leaves the attendee
list untouched. -/
theorem joinSessionUpdate_attendees_stable (s : Session) (uid : String) (now : Nat)
    (h : s.attendees.any (fun a => a.user == uid) = true) :
    (joinSessionUpdate s uid now).attendees = s.attendees := by
  unfold joinSessionUpdate
  rw [setLiveIfDue_attendees, addAttendee_attendees, if_pos h]

theorem attendCount_pos_iff_any (s : Session) (uid : String) :
    s.attendees.any (fun a => a.user == uid) = true ↔ 1 ≤ attendCount s uid := by
  unfold attendCount
  rw [List.any_eq_true]
  constructor
  · rintro ⟨a, ha, hpa⟩
    have hmem : a ∈ s.attendees.filter (fun a => a.user == uid) :=
      List.mem_filter.mpr ⟨ha, hpa⟩
    have := List.ne_nil_of_mem hmem
    have := List.length_pos.mpr this
    omega
  · intro h
    have hne : s.attendees.filter (fun a => a.user == uid) ≠ [] := by
      intro hnil
      rw [hnil] at h
      simp at h
    obtain ⟨a, ha⟩ := List.exists_mem_of_ne_nil _ hne
    exact ⟨a, (List.mem_filter.mp ha).1, (List.mem_filter.mp ha).2⟩

theorem attendCount_setLiveIfDue (s : Session) (uid : String) (now : Nat) :
    attendCount (setLiveIfDue s now) uid = attendCount s uid := by
  unfold attendCount
  rw [setLiveIfDue_attendees]

/-- One `joinSessionUpdate` leaves exactly one attendee entry for the user,
whenever the session held at most one to begin with. -/
theorem attendCount_joinSessionUpdate (s : Session) (uid : String) (now : Nat)
    (h : attendCount s uid ≤ 1) :
    attendCount (joinSessionUpdate s uid now) uid = 1 := by
  unfold joinSessionUpdate
  rw [attendCount_setLiveIfDue]
  by_cases hany : s.attendees.any (fun a => a.user == uid) = true
  · have h1 : 1 ≤ attendCount s uid := (attendCount_pos_iff_any s uid).mp hany
    have heq : attendCount (addAttendee s uid now) uid = attendCount s uid := by
      unfold attendCount
      rw [addAttendee_attendees, if_pos hany]
    omega
  · have hany' : s.attendees.any (fun a => a.user == uid) = false := by
      revert hany; cases s.attendees.any (fun a => a.user == uid) <;> simp
    have h0 : attendCount s uid = 0 := by
      rcases Nat.eq_zero_or_pos (attendCount s uid) with h' | h'
      · exact h'
      · exact absurd ((attendCount_pos_iff_any s uid).mpr h') hany
    have heq : attendCount (addAttendee s uid now) uid = attendCount s uid + 1 := by
      unfold attendCount
      rw [addAttendee_attendees, if_neg (by simp [hany']), List.filter_append]
      simp
    omega

theorem find?_updateFirst {α : Type} (p : α → Bool) (f : α → α)
    (hf : ∀ x, p x = true → p (f x) = true) :
    ∀ l : List α, List.find? p (updateFirst p f l) = (List.find? p l).map f := by
  intro l
  induction l with
  | nil => rfl
  | cons x xs ih =>
      by_cases hx : p x = true
      · simp [updateFirst, hx, List.find?_cons_of_pos, hf x hx]
      · have hx' : p x = false := by revert hx; cases p x <;> simp
        simp [updateFirst, hx', List.find?_cons_of_neg, ih]

theorem any_updateFirst {α : Type} (p : α → Bool) (f : α → α)
    (hf : ∀ x, p x = true → p (f x) = true) :
    ∀ l : List α, (updateFirst p f l).any p = l.any p := by
  intro l
  induction l with
  | nil => rfl
  | cons x xs ih =>
      by_cases hx : p x = true
      · simp [updateFirst, hx, hf x hx]
      · have hx' : p x = false := by revert hx; cases p x <;> simp
        simp [updateFirst, hx', ih]

/-- C10: joining a session is idempotent on the attendee list — for every
group, session and user with at most one attendee entry for that user,
calling `joinSession` twice with the same session id and user succeeds both
times, leaves the session with exactly one attendee entry for that user, and
the attendee list after the second call equals the one after the first. -/
theorem joinSession_idempotent (g : Group) (sid uid : String) (now₁ now₂ : Nat)
    (s : Session) (hs : findSession g sid = some s)
    (hcount : attendCount s uid ≤ 1) :
    ∃ g₁ g₂ s₁ s₂,
      joinSession g sid uid now₁ = .ok g₁ ∧
      joinSession g₁ sid uid now₂ = .ok g₂ ∧
      findSession g₁ sid = some s₁ ∧
      findSession g₂ sid = some s₂ ∧
      s₂.attendees = s₁.attendees ∧
      attendCount s₁ uid = 1 ∧ attendCount s₂ uid = 1 := by
  have hp : ∀ (now : Nat) (x : Session),
      (fun t => t.id == sid) x = true → (fun t => t.id == sid) (joinSessionUpdate x uid now) = true := by
    intro now x hx
    simpa [joinSessionUpdate_id] using hx
  have hs' : List.find? (fun t => t.id == sid) g.sessions = some s := hs
  have hmem : s ∈ g.sessions := List.mem_of_find?_eq_some hs'
  have hps := List.find?_some hs'
  have hany : g.sessions.any (fun t => t.id == sid) = true :=
    List.any_eq_true.mpr ⟨s, hmem, hps⟩
  refine ⟨⟨updateFirst (fun t => t.id == sid) (fun t => joinSessionUpdate t uid now₁) g.sessions⟩,
    ⟨updateFirst (fun t => t.id == sid) (fun t => joinSessionUpdate t uid now₂)
      (updateFirst (fun t => t.id == sid) (fun t => joinSessionUpdate t uid now₁) g.sessions)⟩,
    joinSessionUpdate s uid now₁,
    joinSessionUpdate (joinSessionUpdate s uid now₁) uid now₂,
    ?_, ?_, ?_, ?_, ?_, ?_, ?_⟩
  · unfold joinSession
    rw [if_pos hany]
  · unfold joinSession
    rw [if_pos (by rw [any_updateFirst _ _ (hp now₁)]; exact hany)]
  · unfold findSession
    rw [find?_updateFirst _ _ (hp now₁), hs']
    rfl
  · unfold findSession
    rw [find?_updateFirst _ _ (hp now₂), find?_updateFirst _ _ (hp now₁), hs']
    rfl
  · exact joinSessionUpdate_attendees_stable _ uid now₂ (any_joinSessionUpdate s uid now₁)
  · exact attendCount_joinSessionUpdate s uid now₁ hcount
  · have hone := attendCount_joinSessionUpdate s uid now₁ hcount
    have hst := joinSessionUpdate_attendees_stable (joinSessionUpdate s uid now₁) uid now₂
      (any_joinSessionUpdate s uid now₁)
    unfold attendCount at hone ⊢
    rw [hst]
    exact hone

/-- C10 witness: a group with one empty session; joining twice leaves one
attendee entry. -/
theorem joinSession_idempotent_witness :
    ∃ g₁ g₂ s₁ s₂,
      joinSession
          ⟨[{ id := "s1", scheduledAt := 10, status := "scheduled"
              liveStartedAt := none, attendees := [] }]⟩ "s1" "u1" 5 = .ok g₁ ∧
      joinSession g₁ "s1" "u1" 7 = .ok g₂ ∧
      findSession g₁ "s1" = some s₁ ∧
      findSession g₂ "s1" = some s₂ ∧
      s₂.attendees = s₁.attendees ∧
      attendCount s₁ "u1" = 1 ∧ attendCount s₂ "u1" = 1 :=
  joinSession_idempotent
    ⟨[{ id := "s1", scheduledAt := 10, status := "scheduled"
        liveStartedAt := none, attendees := [] }]⟩ "s1" "u1" 5 7
    { id := "s1", scheduledAt := 10, status := "scheduled"
      liveStartedAt := none, attendees := [] } (by simp [findSession]) (by simp [attendCount])

end StudyAI
